import Mathlib

/-!
# window_utils.cc: platform window query backends

A shallow embedding of `src/frontend/native/window-utils/src/window_utils.cc`.
The three platform branches (CoreGraphics, Win32, X11) and the N-API bindings
are embedded as pure functions over an explicit snapshot of the operating
system's window state.  Machine integers are `Int`/`Nat` with explicit wrapping.
-/

namespace WindowUtils

/-! ## Machine integers -/

/-- Value of `static_cast<int64_t>(x)`: the two's-complement 64-bit reading of `x`. -/
def toInt64 (x : Int) : Int :=
  let r := x % 18446744073709551616
  if r < 9223372036854775808 then r else r - 18446744073709551616

/-- Value of a cast to a 64-bit unsigned type (`HWND` pointer value, X11 `Window`). -/
def toUInt64 (x : Int) : Nat := (x % 18446744073709551616).toNat

/-- Value of a cast to a 32-bit unsigned type (`DWORD`, `CGWindowID`). -/
def toUInt32 (x : Int) : Nat := (x % 4294967296).toNat

/-- The `WindowInfo` struct: `int64_t windowId; std::string title;` (title as bytes). -/
structure WindowInfo where
  windowId : Int
  title : List Nat
  deriving DecidableEq, Repr

/-! ## Text encodings used by the platform string conversions -/

/-- UTF-8 bytes of one code point. -/
def utf8Encode (c : Nat) : List Nat :=
  if c < 128 then [c]
  else if c < 2048 then [192 + c / 64, 128 + c % 64]
  else if c < 65536 then [224 + c / 4096, 128 + (c / 64) % 64, 128 + c % 64]
  else [240 + c / 262144, 128 + (c / 4096) % 64, 128 + (c / 64) % 64, 128 + c % 64]

/-- UTF-16 high (leading) surrogate. -/
def isHighSurrogate (u : Nat) : Bool := decide (55296 ≤ u) && decide (u < 56320)

/-- UTF-16 low (trailing) surrogate. -/
def isLowSurrogate (u : Nat) : Bool := decide (56320 ≤ u) && decide (u < 57344)

/-- Any UTF-16 surrogate code unit. -/
def isSurrogate (u : Nat) : Bool := decide (55296 ≤ u) && decide (u < 57344)

/-- Code point of a surrogate pair. -/
def combineSurrogates (hi lo : Nat) : Nat := 65536 + (hi - 55296) * 1024 + (lo - 56320)

/-- Continuation byte `10xxxxxx`. -/
def isCont (b : Nat) : Bool := decide (128 ≤ b) && decide (b < 192)

/-- Well-formed UTF-16: every surrogate is part of a high/low pair. -/
def wellFormedUtf16 : List Nat → Bool
  | [] => true
  | [u] => !isSurrogate u
  | u :: v :: rest =>
    if isHighSurrogate u && isLowSurrogate v then wellFormedUtf16 rest
    else !isSurrogate u && wellFormedUtf16 (v :: rest)

/-- UTF-16 to UTF-8 transcoding; an unpaired surrogate becomes U+FFFD (`EF BF BD`). -/
def utf16ToUtf8 : List Nat → List Nat
  | [] => []
  | [u] => if isSurrogate u then [239, 191, 189] else utf8Encode u
  | u :: v :: rest =>
    if isHighSurrogate u && isLowSurrogate v then
      utf8Encode (combineSurrogates u v) ++ utf16ToUtf8 rest
    else if isSurrogate u then [239, 191, 189] ++ utf16ToUtf8 (v :: rest)
    else utf8Encode u ++ utf16ToUtf8 (v :: rest)

/-- The C string at the start of a buffer: the bytes before the first NUL
(`std::string::operator=(const char*)`). -/
def cString (buf : List Nat) : List Nat := buf.takeWhile (fun b => b != 0)

/-! ## Windows: Win32 -/

namespace Win32

/-- One window of the Win32 window manager as the calls of the source observe it. -/
structure Window where
  /-- Pointer value of the `HWND`. -/
  hwnd : Nat
  /-- Owner process id reported by `GetWindowThreadProcessId` (a `DWORD`). -/
  pid : Nat
  /-- Whether `EnumWindows` reaches the window (top-level windows only). -/
  topLevel : Bool
  /-- Result of `IsWindowVisible`. -/
  visible : Bool
  /-- Bit pattern of `GetWindowLongW(hwnd, GWL_EXSTYLE)`. -/
  exStyle : Nat
  /-- Window text as UTF-16 code units. -/
  text : List Nat
  deriving DecidableEq, Repr

/-- The windows that exist, in enumeration (z) order. -/
structure Snapshot where
  windows : List Window
  deriving Repr

/-- Handles are distinct 64-bit pointer values, pids are `DWORD`s, text is 16-bit units. -/
def Snapshot.WellFormed (s : Snapshot) : Prop :=
  (s.windows.map Window.hwnd).Nodup ∧
  ∀ w ∈ s.windows, w.hwnd < 18446744073709551616 ∧ w.pid < 4294967296 ∧
    ∀ u ∈ w.text, u < 65536

instance (s : Snapshot) : Decidable s.WellFormed := by
  unfold Snapshot.WellFormed; infer_instance

/-- The extended style bit `WS_EX_TOOLWINDOW` (0x00000080). -/
def WS_EX_TOOLWINDOW : Nat := 128

/-- `GetWindowThreadProcessId(hwnd, &pid)` with `pid` preset to 0: the owner pid of
the window with that handle; `pid` stays 0 when the handle names no window. -/
def GetWindowThreadProcessId (s : Snapshot) (hwnd : Nat) : Nat :=
  match s.windows.find? (fun w => w.hwnd == hwnd) with
  | some w => w.pid
  | none => 0

/-- `GetWindowTextW(hwnd, buf, 512)`: the text up to its first NUL, at most 511 units;
the return value `len` is the length of the copied list. -/
def GetWindowTextW (w : Window) (nMaxCount : Nat) : List Nat :=
  (w.text.takeWhile (fun u => u != 0)).take (nMaxCount - 1)

/-- `WideCharToMultiByte(CP_UTF8, 0, buf, len, ...)`: UTF-8 transcoding in which an
unpaired surrogate is replaced by U+FFFD. -/
def WideCharToMultiByte (buf : List Nat) : List Nat := utf16ToUtf8 buf

/-- Line 86: `GetWindowPidImpl`. -/
def GetWindowPidImpl (s : Snapshot) (windowId : Int) : Int :=
  let pid := GetWindowThreadProcessId s (toUInt64 windowId)
  if pid > 0 then toInt64 (pid : Int) else -1

/-- Line 102: `EnumWindowsProc`, returning the record it pushes, if any. -/
def EnumWindowsProc (targetPid : Nat) (w : Window) : Option WindowInfo :=
  if w.pid != targetPid then none
  else if !w.visible then none
  else if w.exStyle &&& WS_EX_TOOLWINDOW != 0 then none
  else
    let buf := GetWindowTextW w 512
    if buf.length ≤ 0 then none
    else some { windowId := toInt64 (w.hwnd : Int), title := WideCharToMultiByte buf }

/-- `EnumWindows`: the callback is run on every top-level window in order (the
callback always returns `TRUE`, so the enumeration never stops early). -/
def EnumWindows (s : Snapshot) (cb : Window → Option WindowInfo) : List WindowInfo :=
  (s.windows.filter (fun w => w.topLevel)).filterMap cb

/-- Line 126: `GetWindowsForPidImpl`. -/
def GetWindowsForPidImpl (s : Snapshot) (targetPid : Int) : List WindowInfo :=
  EnumWindows s (EnumWindowsProc (toUInt32 targetPid))

end Win32

/-! ## macOS: CoreGraphics -/

namespace CoreGraphics

/-- The entries of a window's `CFDictionary` that the source reads; `none` is an
entry for which `CFDictionaryGetValue` returns NULL. -/
structure WindowInfoDict where
  /-- Entry `kCGWindowOwnerPID`, as `CFNumberGetValue` reads it (`kCFNumberSInt64Type`). -/
  ownerPID : Option Int
  /-- Entry `kCGWindowLayer`, as `CFNumberGetValue` reads it (`kCFNumberSInt32Type`). -/
  layer : Option Int
  /-- Entry `kCGWindowNumber`, as `CFNumberGetValue` reads it (`kCFNumberSInt64Type`). -/
  number : Option Int
  /-- Entry `kCGWindowName`: the UTF-16 code units of the `CFString`. -/
  name : Option (List Nat)
  deriving DecidableEq, Repr

/-- One window known to the window server. -/
structure Window where
  /-- The `CGWindowID` of the window. -/
  wid : Nat
  onScreen : Bool
  desktopElement : Bool
  info : WindowInfoDict
  deriving DecidableEq, Repr

/-- The window server state; `listAvailable = false` makes
`CGWindowListCopyWindowInfo` return NULL. -/
structure Snapshot where
  listAvailable : Bool
  windows : List Window
  deriving Repr

/-- Window ids are distinct 32-bit values, each dictionary carries its window's own
number, and names are 16-bit code units. -/
def Snapshot.WellFormed (s : Snapshot) : Prop :=
  (s.windows.map Window.wid).Nodup ∧
  ∀ w ∈ s.windows, w.wid < 4294967296 ∧ w.info.number = some (w.wid : Int) ∧
    ∀ n ∈ w.info.name, ∀ u ∈ n, u < 65536

instance (s : Snapshot) : Decidable s.WellFormed := by
  unfold Snapshot.WellFormed; infer_instance

/-- The two option sets passed to `CGWindowListCopyWindowInfo`. -/
inductive ListOption where
  /-- Options `kCGWindowListOptionOnScreenOnly | kCGWindowListExcludeDesktopElements`. -/
  | onScreenOnlyExcludeDesktopElements
  /-- Option `kCGWindowListOptionIncludingWindow`. -/
  | includingWindow

/-- `CGWindowListCopyWindowInfo(option, relativeToWindow)`. -/
def CGWindowListCopyWindowInfo (s : Snapshot) (option : ListOption) (relativeToWindow : Nat) :
    Option (List WindowInfoDict) :=
  if !s.listAvailable then none
  else match option with
    | .onScreenOnlyExcludeDesktopElements =>
      some ((s.windows.filter (fun w => w.onScreen && !w.desktopElement)).map Window.info)
    | .includingWindow =>
      some ((s.windows.filter (fun w => w.wid == relativeToWindow)).map Window.info)

/-- `kCGNullWindowID`. -/
def kCGNullWindowID : Nat := 0

/-- `CFStringGetMaximumSizeForEncoding(len, kCFStringEncodingUTF8)`. -/
def CFStringGetMaximumSizeForEncoding (len : Nat) : Nat := len * 3

/-- `CFStringGetCString(nameRef, buf, maxSize, kCFStringEncodingUTF8)`: the buffer
contents (UTF-8 bytes and the terminating NUL) on success; the conversion fails on
a string that is not well-formed UTF-16 or does not fit the buffer. -/
def CFStringGetCString (name : List Nat) (maxSize : Nat) : Option (List Nat) :=
  if wellFormedUtf16 name && decide ((utf16ToUtf8 name).length + 1 ≤ maxSize) then
    some (utf16ToUtf8 name ++ [0])
  else none

/-- Line 8: `GetWindowPidImpl`. -/
def GetWindowPidImpl (s : Snapshot) (windowId : Int) : Int :=
  match CGWindowListCopyWindowInfo s .includingWindow (toUInt32 windowId) with
  | none => -1
  | some windowList =>
    match windowList with
    | info :: _ =>
      match info.ownerPID with
      | some pid => pid
      | none => -1
    | [] => -1

/-- Lines 60-69: the title read from the `kCGWindowName` entry. -/
def windowTitle (info : WindowInfoDict) : List Nat :=
  match info.name with
  | some nameRef =>
    let maxSize := CFStringGetMaximumSizeForEncoding nameRef.length + 1
    match CFStringGetCString nameRef maxSize with
    | some buf => cString buf
    | none => []
  | none => []

/-- Lines 39-74: one iteration of the loop, returning the record it pushes, if any. -/
def windowRecord (targetPid : Int) (info : WindowInfoDict) : Option WindowInfo :=
  match info.ownerPID with
  | none => none
  | some pid =>
    if pid != targetPid then none
    else if (match info.layer with
             | some layer => layer != 0
             | none => false) then none
    else match info.number with
      | none => none
      | some wid =>
        let title := windowTitle info
        if title.isEmpty then none
        else some { windowId := wid, title := title }

/-- Line 30: `GetWindowsForPidImpl`. -/
def GetWindowsForPidImpl (s : Snapshot) (targetPid : Int) : List WindowInfo :=
  match CGWindowListCopyWindowInfo s .onScreenOnlyExcludeDesktopElements kCGNullWindowID with
  | none => []
  | some windowList => windowList.filterMap (windowRecord targetPid)

end CoreGraphics

/-! ## Linux: X11 -/

namespace X11

/-- One window of the X server as the Xlib calls of the source observe it. -/
structure XWindow where
  /-- The `Window` id. -/
  id : Nat
  /-- The `unsigned long` found at `prop` when the `XA_CARDINAL` read of
  `_NET_WM_PID` succeeds with a non-null `prop`. -/
  netWmPid : Option Nat
  /-- Field `map_state` of the window attributes (`IsViewable` is 2). -/
  mapState : Nat
  /-- The bytes stored in `_NET_WM_NAME` with type `UTF8_STRING`, if the window has it. -/
  netWmName : Option (List Nat)
  deriving DecidableEq, Repr

/-- The window hierarchy reported by `XQueryTree`. -/
inductive XTree where
  | node (window : Nat) (children : List XTree)
  deriving Repr

/-- The X server state seen through the process-wide display connection. -/
structure Server where
  /-- Whether `XOpenDisplay(nullptr)` returned a connection. -/
  display : Bool
  /-- Result of `XInternAtom(dpy, "_NET_WM_PID", True)`; 0 is `None`. -/
  pidAtom : Nat
  /-- Result of `XInternAtom(dpy, "_NET_WM_NAME", True)`; 0 is `None`. -/
  nameAtom : Nat
  /-- The windows that exist. -/
  windows : List XWindow
  /-- The hierarchy below `DefaultRootWindow(dpy)`. -/
  tree : XTree
  deriving Repr

/-- The atom `None`. -/
def None : Nat := 0

/-- The map state `IsViewable`. -/
def IsViewable : Nat := 2

/-- The existing window with the given id. -/
def Server.findWindow (srv : Server) (w : Nat) : Option XWindow :=
  srv.windows.find? (fun x => x.id == w)

/-- A `Window` on the wire is a `CARD32` (`Xproto.h`: `#define Window CARD32`): Xlib puts
the low 32 bits of the `unsigned long` id into a request, and the ids of a reply are
32-bit values. -/
def card32 (w : Nat) : Nat := w % 4294967296

/-- `XGetWindowProperty(dpy, w, pidAtom, 0, 1, False, XA_CARDINAL, ...) == Success && prop`,
giving the `unsigned long` at `prop`; the request names the window by `card32 w` and fails
on a missing window or atom. A request for a missing window raises `BadWindow`; the failed
status is what the call returns once the X error handler installed by the host returns
(Xlib's default handler would end the process instead). -/
def XGetWindowPropertyCardinal (srv : Server) (w : Nat) (property : Nat) : Option Nat :=
  if property = None then none
  else match srv.findWindow (card32 w) with
    | none => none
    | some x => x.netWmPid

/-- `XGetWindowProperty(dpy, w, nameAtom, 0, longLength, False, UTF8_STRING, ...) == Success
&& nameProp`, giving the returned buffer: at most `4 * longLength` bytes of the property
followed by the NUL that Xlib appends. -/
def XGetWindowPropertyUtf8 (srv : Server) (w : Nat) (property : Nat) (longLength : Nat) :
    Option (List Nat) :=
  if property = None then none
  else match srv.findWindow (card32 w) with
    | none => none
    | some x =>
      match x.netWmName with
      | none => none
      | some bytes => some (bytes.take (4 * longLength) ++ [0])

/-- `XGetWindowAttributes(dpy, w, &attrs)`, giving `attrs.map_state` on success. -/
def XGetWindowAttributes (srv : Server) (w : Nat) : Option Nat :=
  (srv.findWindow (card32 w)).map XWindow.mapState

/-- Status of `XQueryTree(dpy, w, ...)`: zero (failure) for a window that does not exist. -/
def XQueryTree (srv : Server) (w : Nat) : Bool := (srv.findWindow (card32 w)).isSome

/-- Line 146: `GetWindowPidImpl`. -/
def GetWindowPidImpl (srv : Server) (windowId : Int) : Int :=
  if !srv.display then -1
  else if srv.pidAtom = None then -1
  else match XGetWindowPropertyCardinal srv (toUInt64 windowId) srv.pidAtom with
    | some prop => toInt64 (prop : Int)
    | none => -1

/-- Lines 195-202: the title read from `_NET_WM_NAME` of `children[i]`. -/
def readTitle (srv : Server) (nameAtom : Nat) (child : Nat) : List Nat :=
  match XGetWindowPropertyUtf8 srv child nameAtom 256 with
  | some nameProp => cString nameProp
  | none => []

/-- Lines 180-208: the test applied to `children[i]`, returning the record pushed, if any. -/
def checkWindow (srv : Server) (targetPid : Int) (pidAtom nameAtom : Nat) (child : Nat) :
    Option WindowInfo :=
  match XGetWindowPropertyCardinal srv child pidAtom with
  | none => none
  | some prop =>
    let pid := toInt64 (prop : Int)
    if pid = targetPid then
      match XGetWindowAttributes srv child with
      | some mapState =>
        if mapState = IsViewable then
          let title := readTitle srv nameAtom child
          if !title.isEmpty then some { windowId := toInt64 (child : Int), title := title }
          else none
        else none
      | none => none
    else none

/-- The window id at the top of a tree, as a reply of `XQueryTree` carries it. -/
def XTree.window : XTree → Nat
  | .node w _ => card32 w

mutual
/-- Line 173: `CollectWindowsForPid`; `result` is threaded through the recursion. -/
def CollectWindowsForPid (srv : Server) (targetPid : Int) (pidAtom nameAtom : Nat) :
    XTree → List WindowInfo → List WindowInfo
  | .node root children, result =>
    if !XQueryTree srv root then result
    else collectChildren srv targetPid pidAtom nameAtom children result
/-- Lines 179-212: the loop over `children[i]`. -/
def collectChildren (srv : Server) (targetPid : Int) (pidAtom nameAtom : Nat) :
    List XTree → List WindowInfo → List WindowInfo
  | [], result => result
  | child :: rest, result =>
    let result :=
      match checkWindow srv targetPid pidAtom nameAtom child.window with
      | some rec => result ++ [rec]
      | none => result
    let result := CollectWindowsForPid srv targetPid pidAtom nameAtom child result
    collectChildren srv targetPid pidAtom nameAtom rest result
end

/-- Line 216: `GetWindowsForPidImpl`. -/
def GetWindowsForPidImpl (srv : Server) (targetPid : Int) : List WindowInfo :=
  if !srv.display then []
  else if srv.pidAtom = None then []
  else CollectWindowsForPid srv targetPid srv.pidAtom srv.nameAtom srv.tree []

end X11

/-! ## N-API bindings -/

namespace Napi

/-- A JavaScript argument value; `D` is the type of IEEE doubles. -/
inductive Value (D : Type) where
  | undefined
  | null
  | boolean (b : Bool)
  | number (d : D)
  | string (s : List Nat)
  | object

/-- `Napi::Value::IsNumber`. -/
def Value.IsNumber {D : Type} : Value D → Bool
  | .number _ => true
  | _ => false

/-- The conversions between doubles and `int64_t` used by the bindings. -/
structure NumberOps (D : Type) where
  /-- `Napi::Number::Int64Value`. -/
  Int64Value : D → Int
  /-- `static_cast<double>` of an `int64_t`. -/
  ofInt64 : Int → D

/-- The value a binding returns. -/
inductive Returned (D : Type) where
  /-- `env.Null()`. -/
  | null
  /-- `Napi::Number::New`. -/
  | number (d : D)
  /-- An array of objects with `windowId` and `title`. -/
  | windowArray (items : List (D × List Nat))

/-- What a call of a binding leaves behind: the pending JavaScript exception (a
`TypeError` message), the returned value and how often the platform implementation ran. -/
structure Outcome (D : Type) where
  typeError : Option String
  value : Returned D
  implCalls : Nat

/-- `info[0].As<Napi::Number>().Int64Value()`. -/
def Value.Int64Value {D : Type} (ops : NumberOps D) : Value D → Int
  | .number d => ops.Int64Value d
  | _ => 0

/-- `info[i]` of a `Napi::CallbackInfo`: `undefined` beyond the arguments passed. -/
def argument {D : Type} (info : List (Value D)) (i : Nat) : Value D := info.getD i .undefined

/-- Line 239: `GetWindowPid`, over the platform's `GetWindowPidImpl`. -/
def GetWindowPid {D : Type} (ops : NumberOps D) (GetWindowPidImpl : Int → Int)
    (info : List (Value D)) : Outcome D :=
  if decide (info.length < 1) || !(argument info 0).IsNumber then
    ⟨some "Expected windowId (number)", .null, 0⟩
  else
    let windowId := (argument info 0).Int64Value ops
    let pid := GetWindowPidImpl windowId
    ⟨none, .number (ops.ofInt64 pid), 1⟩

/-- Line 250: `GetWindowsForPid`, over the platform's `GetWindowsForPidImpl`. -/
def GetWindowsForPid {D : Type} (ops : NumberOps D) (GetWindowsForPidImpl : Int → List WindowInfo)
    (info : List (Value D)) : Outcome D :=
  if decide (info.length < 1) || !(argument info 0).IsNumber then
    ⟨some "Expected pid (number)", .null, 0⟩
  else
    let pid := (argument info 0).Int64Value ops
    let windows := GetWindowsForPidImpl pid
    ⟨none, .windowArray (windows.map (fun w => (ops.ofInt64 w.windowId, w.title))), 1⟩

end Napi

/-! ## The traversal as the specification words it -/

namespace X11

mutual
/-- Pre-order depth-first listing of a window tree, the top window first; the windows are
listed by their 32-bit ids. -/
def XTree.preorder : XTree → List Nat
  | .node w children => card32 w :: preorderForest children
/-- Pre-order listing of a list of sibling trees, left to right. -/
def preorderForest : List XTree → List Nat
  | [] => []
  | child :: rest => child.preorder ++ preorderForest rest
end

/-- The children of the top window. -/
def XTree.children : XTree → List XTree
  | .node _ children => children

mutual
/-- Every window of the tree exists on the server. -/
def XTree.allExist (srv : Server) : XTree → Bool
  | .node w children => (srv.findWindow (card32 w)).isSome && forestAllExist srv children
/-- Every window of a list of sibling trees exists on the server. -/
def forestAllExist (srv : Server) : List XTree → Bool
  | [] => true
  | child :: rest => child.allExist srv && forestAllExist srv rest
end

mutual
/-- The windows the traversal tests below a tree's top window, in the order tested. -/
def visited (srv : Server) : XTree → List Nat
  | .node root children => if !XQueryTree srv root then [] else visitedForest srv children
/-- The windows the loop over a list of children tests, in the order tested. -/
def visitedForest (srv : Server) : List XTree → List Nat
  | [] => []
  | child :: rest => child.window :: (visited srv child ++ visitedForest srv rest)
end

end X11

/-! ## Concrete snapshots -/

/-- A visible top-level Win32 window titled "A" of process 1234. -/
def win32WindowA : Win32.Window :=
  { hwnd := 65552, pid := 1234, topLevel := true, visible := true, exStyle := 256,
    text := [65] }

/-- A visible, titled tool window of process 1234. -/
def win32ToolWindow : Win32.Window :=
  { hwnd := 65560, pid := 1234, topLevel := true, visible := true, exStyle := 128,
    text := [84] }

/-- A Win32 desktop with the titled window "A" and the tool window of process 1234. -/
def win32Desk : Win32.Snapshot := { windows := [win32WindowA, win32ToolWindow] }

/-- CoreGraphics window 5 of process 77, titled "A", on screen on layer 0. -/
def cgWindowA : CoreGraphics.Window :=
  { wid := 5, onScreen := true, desktopElement := false,
    info := { ownerPID := some 77, layer := some 0, number := some 5, name := some [65] } }

/-- A CoreGraphics window list holding window 5. -/
def cgDesk : CoreGraphics.Snapshot := { listAvailable := true, windows := [cgWindowA] }

/-- X11 window 3 of process 10, viewable and titled "R". -/
def xWindowR : X11.XWindow :=
  { id := 3, netWmPid := some 10, mapState := 2, netWmName := some [82] }

/-- An X server with root window 1, a container 2 without properties and, nested in it,
window 3. -/
def xDesk : X11.Server :=
  { display := true, pidAtom := 300, nameAtom := 301,
    windows := [
      { id := 1, netWmPid := none, mapState := 2, netWmName := none },
      { id := 2, netWmPid := none, mapState := 2, netWmName := none },
      xWindowR ],
    tree := .node 1 [.node 2 [.node 3 []]] }

/-- A Win32 desktop whose only window has a title of 512 UTF-16 units. -/
def win32LongTitle : Win32.Snapshot :=
  { windows := [
      { hwnd := 65552, pid := 1234, topLevel := true, visible := true, exStyle := 0,
        text := List.replicate 512 65 } ] }

/-- A CoreGraphics window list whose window 6 has no `kCGWindowLayer` entry. -/
def cgNoLayer : CoreGraphics.Snapshot :=
  { listAvailable := true,
    windows := [
      { wid := 6, onScreen := true, desktopElement := false,
        info := { ownerPID := some 77, layer := none, number := some 6, name := some [66] } } ] }

namespace Napi

/-- The call passes a first argument and it is a number. -/
def firstArgumentIsNumber {D : Type} : List (Value D) → Bool
  | .number _ :: _ => true
  | _ => false

/-- Doubles stood in for by integers, for concrete calls. -/
def intOps : NumberOps Int := { Int64Value := toInt64, ofInt64 := id }

end Napi

/-! ## Encoding lemmas -/

theorem combineSurrogates_scalar (u v : Nat) (hu : isHighSurrogate u = true)
    (hv : isLowSurrogate v = true) :
    combineSurrogates u v < 1114112 ∧ isSurrogate (combineSurrogates u v) = false ∧
      65536 ≤ combineSurrogates u v := by
  simp only [isHighSurrogate, isLowSurrogate, Bool.and_eq_true, decide_eq_true_eq] at hu hv
  simp only [isSurrogate, combineSurrogates, Bool.and_eq_false_iff, decide_eq_false_iff_not]
  omega

theorem utf8Encode_ne_nil (c : Nat) : utf8Encode c ≠ [] := by
  unfold utf8Encode; split_ifs <;> simp

theorem utf16ToUtf8_ne_nil (units : List Nat) (h : units ≠ []) : utf16ToUtf8 units ≠ [] := by
  match units, h with
  | [u], _ =>
    unfold utf16ToUtf8; split
    · simp
    · exact utf8Encode_ne_nil u
  | u :: v :: rest, _ =>
    unfold utf16ToUtf8
    split_ifs <;> simp [utf8Encode_ne_nil]

theorem zero_not_mem_utf8Encode (c : Nat) (hc : c ≠ 0) : 0 ∉ utf8Encode c := by
  unfold utf8Encode; split_ifs <;> simp <;> omega

theorem zero_not_mem_utf16ToUtf8 (units : List Nat) (h : 0 ∉ units) :
    0 ∉ utf16ToUtf8 units := by
  induction units using utf16ToUtf8.induct with
  | case1 => simp [utf16ToUtf8]
  | case2 u hs => rw [utf16ToUtf8, if_pos hs]; simp
  | case3 u hs =>
    rw [utf16ToUtf8, if_neg hs]
    exact zero_not_mem_utf8Encode u (by rintro rfl; simp at h)
  | case4 u v rest hp ih =>
    rw [utf16ToUtf8, if_pos hp]
    simp only [Bool.and_eq_true] at hp
    obtain ⟨_, _, h3⟩ := combineSurrogates_scalar u v hp.1 hp.2
    simp only [List.mem_append, not_or]
    exact ⟨zero_not_mem_utf8Encode _ (by omega), ih (fun hx => h (by simp [hx]))⟩
  | case5 u v rest hp hs ih =>
    rw [utf16ToUtf8, if_neg hp, if_pos hs]
    simp only [List.mem_append, not_or]
    exact ⟨by simp, ih (fun hx => h (List.mem_cons_of_mem _ hx))⟩
  | case6 u v rest hp hs ih =>
    rw [utf16ToUtf8, if_neg hp, if_neg hs]
    simp only [List.mem_append, not_or]
    exact ⟨zero_not_mem_utf8Encode u (by rintro rfl; simp at h),
      ih (fun hx => h (List.mem_cons_of_mem _ hx))⟩

theorem utf8Encode_length_le (c : Nat) (hc : c < 65536) : (utf8Encode c).length ≤ 3 := by
  unfold utf8Encode; split_ifs <;> simp

theorem utf8Encode_length_le_four (c : Nat) : (utf8Encode c).length ≤ 4 := by
  unfold utf8Encode; split_ifs <;> simp

theorem utf16ToUtf8_length_le (units : List Nat) (h : ∀ u ∈ units, u < 65536) :
    (utf16ToUtf8 units).length ≤ units.length * 3 := by
  induction units using utf16ToUtf8.induct with
  | case1 => simp [utf16ToUtf8]
  | case2 u hs => rw [utf16ToUtf8, if_pos hs]; simp
  | case3 u hs =>
    rw [utf16ToUtf8, if_neg hs]
    simpa using utf8Encode_length_le u (h u (by simp))
  | case4 u v rest hp ih =>
    rw [utf16ToUtf8, if_pos hp]
    have := ih (fun x hx => h x (by simp [hx]))
    have := utf8Encode_length_le_four (combineSurrogates u v)
    simp only [List.length_append, List.length_cons]
    omega
  | case5 u v rest hp hs ih =>
    rw [utf16ToUtf8, if_neg hp, if_pos hs]
    have := ih (fun x hx => h x (List.mem_cons_of_mem _ hx))
    simp only [List.length_append, List.length_cons, List.length_nil] at this ⊢
    omega
  | case6 u v rest hp hs ih =>
    rw [utf16ToUtf8, if_neg hp, if_neg hs]
    have h1 := ih (fun x hx => h x (List.mem_cons_of_mem _ hx))
    have h2 := utf8Encode_length_le u (h u (by simp))
    simp only [List.length_append, List.length_cons, List.length_nil] at h1 h2 ⊢
    omega

theorem cString_cons_nonzero (b : Nat) (rest : List Nat) (hb : b ≠ 0) :
    cString (b :: rest) = b :: cString rest := by
  simp [cString, List.takeWhile_cons, hb]

theorem cString_cons_zero (rest : List Nat) : cString (0 :: rest) = [] := by
  simp [cString, List.takeWhile_cons]

theorem cString_append_nul (bytes : List Nat) : cString (bytes ++ [0]) = cString bytes := by
  induction bytes with
  | nil => simp [cString]
  | cons b rest ih =>
    by_cases hb : b = 0
    · subst hb; rw [List.cons_append, cString_cons_zero, cString_cons_zero]
    · rw [List.cons_append, cString_cons_nonzero _ _ hb, cString_cons_nonzero _ _ hb, ih]

theorem cString_eq_self (bytes : List Nat) (h : 0 ∉ bytes) : cString bytes = bytes := by
  induction bytes with
  | nil => simp [cString]
  | cons b rest ih =>
    have hb : b ≠ 0 := by rintro rfl; simp at h
    rw [cString_cons_nonzero _ _ hb, ih (fun hx => h (List.mem_cons_of_mem _ hx))]

theorem zero_not_mem_cString (bytes : List Nat) : 0 ∉ cString bytes := by
  intro h
  have := List.mem_takeWhile_imp h
  simp at this

theorem toInt64_natCast_inj (a b : Nat) (ha : a < 18446744073709551616)
    (hb : b < 18446744073709551616) (h : toInt64 (a : Int) = toInt64 (b : Int)) : a = b := by
  unfold toInt64 at h
  simp only at h
  split_ifs at h <;> omega

namespace Win32

theorem enumWindowsProc_eq_some (targetPid : Nat) (w : Window) (r : WindowInfo)
    (h : EnumWindowsProc targetPid w = some r) :
    w.pid = targetPid ∧ w.visible = true ∧ w.exStyle &&& WS_EX_TOOLWINDOW = 0 ∧
      GetWindowTextW w 512 ≠ [] ∧
      r = { windowId := toInt64 (w.hwnd : Int), title := WideCharToMultiByte (GetWindowTextW w 512) } := by
  unfold EnumWindowsProc at h
  simp only [bne_iff_ne, ne_eq, ite_not, Bool.not_eq_true', Nat.le_zero_eq, List.length_eq_zero]
    at h
  split_ifs at h with h1 h2 h3 h4
  simp only [Option.some.injEq] at h
  refine ⟨h1, ?_, h3, h4, h.symm⟩
  simpa using h2

theorem mem_win32_getWindowsForPidImpl (s : Snapshot) (targetPid : Int) (r : WindowInfo) :
    r ∈ GetWindowsForPidImpl s targetPid ↔
      ∃ w ∈ s.windows, w.topLevel = true ∧ EnumWindowsProc (toUInt32 targetPid) w = some r := by
  simp only [GetWindowsForPidImpl, EnumWindows, List.mem_filterMap, List.mem_filter]
  constructor
  · rintro ⟨w, ⟨hw, ht⟩, hr⟩; exact ⟨w, hw, ht, hr⟩
  · rintro ⟨w, hw, ht, hr⟩; exact ⟨w, ⟨hw, ht⟩, hr⟩

end Win32

/-! ## CoreGraphics lemmas -/

namespace CoreGraphics

theorem windowRecord_eq_some (targetPid : Int) (info : WindowInfoDict) (r : WindowInfo)
    (h : windowRecord targetPid info = some r) :
    info.ownerPID = some targetPid ∧ (info.layer = none ∨ info.layer = some 0) ∧
      info.number = some r.windowId ∧ windowTitle info ≠ [] ∧ r.title = windowTitle info := by
  unfold windowRecord at h
  cases hp : info.ownerPID with
  | none => simp [hp] at h
  | some pid =>
    cases hn : info.number with
    | none =>
      simp only [hp, hn] at h
      split_ifs at h
    | some wid =>
      simp only [hp, hn] at h
      split_ifs at h with h1 h2 h3
      simp only [Option.some.injEq] at h
      subst h
      refine ⟨?_, ?_, rfl, ?_, rfl⟩
      · simpa using h1
      · cases hl : info.layer with
        | none => exact Or.inl rfl
        | some layer =>
          right
          simpa [hl] using h2
      · simpa [List.isEmpty_iff] using h3

theorem mem_cg_getWindowsForPidImpl (s : Snapshot) (targetPid : Int) (r : WindowInfo) :
    r ∈ GetWindowsForPidImpl s targetPid ↔
      s.listAvailable = true ∧ ∃ w ∈ s.windows, w.onScreen = true ∧ w.desktopElement = false ∧
        windowRecord targetPid w.info = some r := by
  unfold GetWindowsForPidImpl CGWindowListCopyWindowInfo
  cases ha : s.listAvailable with
  | false => simp
  | true =>
    simp only [Bool.not_true, Bool.false_eq_true, ↓reduceIte, List.mem_filterMap, List.mem_map,
      List.mem_filter, Bool.and_eq_true, Bool.not_eq_true', true_and]
    constructor
    · rintro ⟨_, ⟨w, ⟨hw, h1, h2⟩, rfl⟩, hr⟩; exact ⟨w, hw, h1, h2, hr⟩
    · rintro ⟨w, hw, h1, h2, hr⟩; exact ⟨_, ⟨w, ⟨hw, h1, h2⟩, rfl⟩, hr⟩

end CoreGraphics

/-! ## X11 lemmas -/

namespace X11

theorem checkWindow_eq_some (srv : Server) (targetPid : Int) (pidAtom nameAtom child : Nat)
    (r : WindowInfo) (h : checkWindow srv targetPid pidAtom nameAtom child = some r) :
    pidAtom ≠ None ∧ ∃ x prop, srv.findWindow (card32 child) = some x ∧
      x.netWmPid = some prop ∧
      toInt64 (prop : Int) = targetPid ∧ x.mapState = IsViewable ∧
      readTitle srv nameAtom child ≠ [] ∧
      r = { windowId := toInt64 (child : Int), title := readTitle srv nameAtom child } := by
  unfold checkWindow at h
  cases hc : XGetWindowPropertyCardinal srv child pidAtom with
  | none => simp [hc] at h
  | some prop =>
    simp only [hc] at h
    unfold XGetWindowPropertyCardinal at hc
    split_ifs at hc with ha
    cases hf : srv.findWindow (card32 child) with
    | none => simp [hf] at hc
    | some x =>
      simp only [hf] at hc
      by_cases hp : toInt64 (prop : Int) = targetPid
      · simp only [hp, if_true, XGetWindowAttributes, hf, Option.map_some'] at h
        by_cases hm : x.mapState = IsViewable
        · simp only [hm, if_true] at h
          by_cases ht : (!(readTitle srv nameAtom child).isEmpty) = true
          · rw [if_pos ht] at h
            simp only [Option.some.injEq] at h
            refine ⟨ha, x, prop, rfl, hc, hp, hm, ?_, h.symm⟩
            simpa [List.isEmpty_iff] using ht
          · rw [if_neg ht] at h; cases h
        · simp [hm] at h
      · simp [hp] at h

mutual
theorem collectWindowsForPid_eq (srv : Server) (targetPid : Int) (pidAtom nameAtom : Nat) :
    ∀ (t : XTree) (result : List WindowInfo),
      CollectWindowsForPid srv targetPid pidAtom nameAtom t result =
        result ++ (visited srv t).filterMap (checkWindow srv targetPid pidAtom nameAtom)
  | .node root children, result => by
    rw [CollectWindowsForPid, visited]
    split
    · simp
    · exact collectChildren_eq srv targetPid pidAtom nameAtom children result
theorem collectChildren_eq (srv : Server) (targetPid : Int) (pidAtom nameAtom : Nat) :
    ∀ (children : List XTree) (result : List WindowInfo),
      collectChildren srv targetPid pidAtom nameAtom children result =
        result ++ (visitedForest srv children).filterMap
          (checkWindow srv targetPid pidAtom nameAtom)
  | [], result => by simp [collectChildren, visitedForest]
  | child :: rest, result => by
    rw [collectChildren, visitedForest]
    rw [collectChildren_eq srv targetPid pidAtom nameAtom rest,
      collectWindowsForPid_eq srv targetPid pidAtom nameAtom child]
    cases hcw : checkWindow srv targetPid pidAtom nameAtom child.window with
    | none => simp [List.filterMap_cons, List.filterMap_append, hcw]
    | some rec => simp [List.filterMap_cons, List.filterMap_append, hcw]
end

end X11

/-! ## Shared lookup lemmas -/

theorem eq_of_nodup_map {α β : Type} (f : α → β) (l : List α) (hn : (l.map f).Nodup)
    (a b : α) (ha : a ∈ l) (hb : b ∈ l) (h : f a = f b) : a = b :=
  List.inj_on_of_nodup_map hn ha hb h

namespace X11

theorem findWindow_some (srv : Server) (w : Nat) (x : XWindow)
    (h : srv.findWindow w = some x) : x ∈ srv.windows ∧ x.id = w := by
  unfold Server.findWindow at h
  refine ⟨List.mem_of_find?_eq_some h, ?_⟩
  simpa using List.find?_some h

theorem card32_lt (w : Nat) : card32 w < 4294967296 := by
  unfold card32; omega

theorem card32_of_lt (w : Nat) (h : w < 4294967296) : card32 w = w := by
  unfold card32; omega

mutual
theorem visited_lt (srv : Server) :
    ∀ t : XTree, ∀ c ∈ visited srv t, c < 4294967296
  | .node root children, c, hc => by
    rw [visited] at hc
    split at hc
    · cases hc
    · exact visitedForest_lt srv children c hc
theorem visitedForest_lt (srv : Server) :
    ∀ children : List XTree, ∀ c ∈ visitedForest srv children, c < 4294967296
  | [], c, hc => by rw [visitedForest] at hc; cases hc
  | .node w cs :: rest, c, hc => by
    rw [visitedForest, List.mem_cons, List.mem_append] at hc
    rcases hc with rfl | hc | hc
    · exact card32_lt w
    · exact visited_lt srv (.node w cs) c hc
    · exact visitedForest_lt srv rest c hc
end

mutual
theorem preorder_lt : ∀ t : XTree, ∀ c ∈ t.preorder, c < 4294967296
  | .node w children, c, hc => by
    rw [XTree.preorder, List.mem_cons] at hc
    rcases hc with rfl | hc
    · exact card32_lt w
    · exact preorderForest_lt children c hc
theorem preorderForest_lt : ∀ children : List XTree, ∀ c ∈ preorderForest children,
    c < 4294967296
  | [], c, hc => by rw [preorderForest] at hc; cases hc
  | t :: rest, c, hc => by
    rw [preorderForest, List.mem_append] at hc
    rcases hc with hc | hc
    · exact preorder_lt t c hc
    · exact preorderForest_lt rest c hc
end

theorem mem_x11_getWindowsForPidImpl (srv : Server) (targetPid : Int) (r : WindowInfo)
    (h : r ∈ GetWindowsForPidImpl srv targetPid) :
    srv.display = true ∧ srv.pidAtom ≠ None ∧
      ∃ child ∈ visited srv srv.tree,
        checkWindow srv targetPid srv.pidAtom srv.nameAtom child = some r := by
  unfold GetWindowsForPidImpl at h
  cases hd : srv.display with
  | false => simp [hd] at h
  | true =>
    by_cases ha : srv.pidAtom = None
    · simp [hd, ha] at h
    · simp only [hd, Bool.not_true, Bool.false_eq_true, ↓reduceIte, ha,
        collectWindowsForPid_eq, List.nil_append, List.mem_filterMap] at h
      exact ⟨rfl, ha, h⟩

theorem record_source (srv : Server) (targetPid : Int) (r : WindowInfo)
    (h : r ∈ GetWindowsForPidImpl srv targetPid) :
    srv.display = true ∧ srv.pidAtom ≠ None ∧
      ∃ (child : Nat) (x : XWindow) (prop : Nat), child < 4294967296 ∧
        srv.findWindow (card32 child) = some x ∧ x ∈ srv.windows ∧ x.id = child ∧
        x.netWmPid = some prop ∧ toInt64 (prop : Int) = targetPid ∧
        x.mapState = IsViewable ∧ readTitle srv srv.nameAtom child ≠ [] ∧
        r = { windowId := toInt64 (child : Int), title := readTitle srv srv.nameAtom child } := by
  obtain ⟨hd, ha, child, hv, hc⟩ := mem_x11_getWindowsForPidImpl srv targetPid r h
  obtain ⟨_, x, prop, hf, hp, ht, hm, hne, hrr⟩ := checkWindow_eq_some _ _ _ _ _ _ hc
  obtain ⟨hx, hid⟩ := findWindow_some srv (card32 child) x hf
  have hlt := visited_lt srv srv.tree child hv
  rw [card32_of_lt child hlt] at hid
  exact ⟨hd, ha, child, x, prop, hlt, hf, hx, hid, hp, ht, hm, hne, hrr⟩

end X11

/-! ## C1: owner of the returned windows -/

namespace X11

mutual
theorem visited_eq_preorder (srv : Server) :
    ∀ t : XTree, t.allExist srv = true → visited srv t = preorderForest t.children
  | .node root children, h => by
    rw [XTree.allExist, Bool.and_eq_true] at h
    rw [visited, XTree.children, XQueryTree, h.1]
    simpa using visitedForest_eq_preorder srv children h.2
theorem visitedForest_eq_preorder (srv : Server) :
    ∀ children : List XTree, forestAllExist srv children = true →
      visitedForest srv children = preorderForest children
  | [], _ => by rw [visitedForest, preorderForest]
  | .node w cs :: rest, h => by
    rw [forestAllExist, Bool.and_eq_true] at h
    rw [visitedForest, preorderForest, XTree.preorder,
      visited_eq_preorder srv (.node w cs) h.1, visitedForest_eq_preorder srv rest h.2]
    rfl
end

theorem readTitle_eq (srv : Server) (nameAtom child : Nat) (x : XWindow) (bytes : List Nat)
    (ha : nameAtom ≠ None) (hf : srv.findWindow (card32 child) = some x)
    (hn : x.netWmName = some bytes) :
    readTitle srv nameAtom child = cString (bytes.take 1024) := by
  unfold readTitle XGetWindowPropertyUtf8
  simp only [ha, ↓reduceIte, hf, hn]
  exact cString_append_nul _

theorem checkWindow_of_match (srv : Server) (targetPid : Int) (pidAtom nameAtom child : Nat)
    (x : XWindow) (prop : Nat) (ha : pidAtom ≠ None)
    (hf : srv.findWindow (card32 child) = some x)
    (hp : x.netWmPid = some prop) (ht : toInt64 (prop : Int) = targetPid)
    (hm : x.mapState = IsViewable) (hne : readTitle srv nameAtom child ≠ []) :
    checkWindow srv targetPid pidAtom nameAtom child =
      some { windowId := toInt64 (child : Int), title := readTitle srv nameAtom child } := by
  have hc : XGetWindowPropertyCardinal srv child pidAtom = some prop := by
    unfold XGetWindowPropertyCardinal
    simp only [ha, ↓reduceIte, hf, hp]
  have hat : XGetWindowAttributes srv child = some IsViewable := by
    unfold XGetWindowAttributes
    rw [hf, Option.map_some', hm]
  unfold checkWindow
  simp only [hc, ht, ↓reduceIte, hat]
  rw [if_pos (by simpa [List.isEmpty_iff] using hne)]

end X11

namespace CoreGraphics

theorem windowTitle_eq (info : WindowInfoDict) (title : List Nat) (hn : info.name = some title)
    (h0 : 0 ∉ title) (hw : wellFormedUtf16 title = true) (hu : ∀ u ∈ title, u < 65536) :
    windowTitle info = utf16ToUtf8 title := by
  have hlen := utf16ToUtf8_length_le title hu
  unfold windowTitle CFStringGetCString CFStringGetMaximumSizeForEncoding
  simp only [hn, hw, Bool.true_and]
  have hfit : decide ((utf16ToUtf8 title).length + 1 ≤ title.length * 3 + 1) = true := by
    rw [decide_eq_true_eq]; omega
  simp only [hfit, ↓reduceIte]
  rw [cString_append_nul, cString_eq_self _ (zero_not_mem_utf16ToUtf8 title h0)]

end CoreGraphics

set_option maxRecDepth 100000 in
/-- C4 (as stated, refuted on Win32): a visible, non-tool, top-level window of process 1234
with a 512-unit title has no record carrying its full title. -/
theorem c4_win32_long_title_not_exact :
    ∃ w ∈ win32LongTitle.windows, w.topLevel = true ∧ w.visible = true ∧
      w.exStyle &&& Win32.WS_EX_TOOLWINDOW = 0 ∧ (w.pid : Int) = 1234 ∧ w.text ≠ [] ∧
      ¬ ∃ r ∈ Win32.GetWindowsForPidImpl win32LongTitle 1234,
        r.windowId = toInt64 (w.hwnd : Int) ∧ r.title = utf16ToUtf8 w.text := by
  decide

/-- C4 (amended): for every process id P and every visible, non-tool, default-layer window
owned by P whose title is non-empty and free of NUL, getWindowsForPid(P) contains a record
with the window's id whose title is the UTF-8 encoding of the title as far as the backend
reads it: the whole title on CoreGraphics when it is well-formed UTF-16, the first 511
UTF-16 units on Win32 and the first 1024 bytes on X11 (so the full title when it is no
longer than that). -/
theorem c4_titled_window_listed (cg : CoreGraphics.Snapshot) (win : Win32.Snapshot)
    (srv : X11.Server) (targetPid : Int) :
    (cg.listAvailable = true → ∀ w ∈ cg.windows, ∀ (wid : Int) (title : List Nat),
      w.onScreen = true → w.desktopElement = false → w.info.ownerPID = some targetPid →
      (w.info.layer = none ∨ w.info.layer = some 0) → w.info.number = some wid →
      w.info.name = some title → title ≠ [] → 0 ∉ title → wellFormedUtf16 title = true →
      (∀ u ∈ title, u < 65536) →
      { windowId := wid, title := utf16ToUtf8 title } ∈
        CoreGraphics.GetWindowsForPidImpl cg targetPid) ∧
    (∀ w ∈ win.windows, w.topLevel = true → w.visible = true →
      w.exStyle &&& Win32.WS_EX_TOOLWINDOW = 0 → w.pid < 4294967296 →
      (w.pid : Int) = targetPid → w.text ≠ [] → 0 ∉ w.text →
      ∃ r ∈ Win32.GetWindowsForPidImpl win targetPid,
        r.windowId = toInt64 (w.hwnd : Int) ∧ r.title = utf16ToUtf8 (w.text.take 511) ∧
        (w.text.length ≤ 511 → r.title = utf16ToUtf8 w.text)) ∧
    (srv.display = true → srv.pidAtom ≠ X11.None → srv.nameAtom ≠ X11.None →
      srv.tree.allExist srv = true →
      ∀ child ∈ X11.preorderForest srv.tree.children, ∀ (x : X11.XWindow) (prop : Nat)
        (bytes : List Nat),
      srv.findWindow child = some x → x.netWmPid = some prop →
      toInt64 (prop : Int) = targetPid → x.mapState = X11.IsViewable →
      x.netWmName = some bytes → bytes ≠ [] → 0 ∉ bytes →
      ∃ r ∈ X11.GetWindowsForPidImpl srv targetPid,
        r.windowId = toInt64 (child : Int) ∧ r.title = bytes.take 1024 ∧
        (bytes.length ≤ 1024 → r.title = bytes)) := by
  refine ⟨?_, ?_, ?_⟩
  · intro hav w hw wid title hon hde hpid hlay hnum hname hne h0 hwf hu
    rw [CoreGraphics.mem_cg_getWindowsForPidImpl]
    refine ⟨hav, w, hw, hon, hde, ?_⟩
    have htitle := CoreGraphics.windowTitle_eq w.info title hname h0 hwf hu
    have hne2 : utf16ToUtf8 title ≠ [] := utf16ToUtf8_ne_nil title hne
    unfold CoreGraphics.windowRecord
    rcases hlay with hl | hl <;> simp [hpid, hl, hnum, htitle, hne2]
  · intro w hw htop hvis htool hlt hpid hne h0
    have htw : w.text.takeWhile (fun u => u != 0) = w.text := cString_eq_self w.text h0
    have hbuf : Win32.GetWindowTextW w 512 = w.text.take 511 := by
      unfold Win32.GetWindowTextW; rw [htw]
    have hbne : w.text.take 511 ≠ [] := by
      cases hx : w.text with
      | nil => exact absurd hx hne
      | cons a l => simp
    have hcast : toUInt32 targetPid = w.pid := by
      rw [← hpid]; unfold toUInt32; omega
    refine ⟨{ windowId := toInt64 (w.hwnd : Int), title := utf16ToUtf8 (w.text.take 511) },
      ?_, by dsimp only, by dsimp only, ?_⟩
    · rw [Win32.mem_win32_getWindowsForPidImpl]
      refine ⟨w, hw, htop, ?_⟩
      unfold Win32.EnumWindowsProc
      simp [hcast, hvis, htool, hbuf, hne, Win32.WideCharToMultiByte]
    · intro hlen
      simp only [List.take_of_length_le hlen]
  · intro hd hpa hna hall child hchild x prop bytes hf hp ht hm hn hne h0
    rw [← X11.card32_of_lt child (X11.preorderForest_lt _ child hchild)] at hf
    have h0t : 0 ∉ bytes.take 1024 := fun hx => h0 (List.mem_of_mem_take hx)
    have htitle : X11.readTitle srv srv.nameAtom child = bytes.take 1024 := by
      rw [X11.readTitle_eq srv _ child x bytes hna hf hn, cString_eq_self _ h0t]
    have htne : X11.readTitle srv srv.nameAtom child ≠ [] := by
      rw [htitle]
      cases hx : bytes with
      | nil => exact absurd hx hne
      | cons a l => simp
    have hcw := X11.checkWindow_of_match srv targetPid srv.pidAtom srv.nameAtom child x prop
      hpa hf hp ht hm htne
    refine ⟨{ windowId := toInt64 (child : Int), title := bytes.take 1024 }, ?_, by dsimp only,
      by dsimp only, ?_⟩
    · unfold X11.GetWindowsForPidImpl
      simp only [hd, Bool.not_true, Bool.false_eq_true, ↓reduceIte, hpa,
        X11.collectWindowsForPid_eq, List.nil_append, List.mem_filterMap]
      refine ⟨child, ?_, ?_⟩
      · rw [X11.visited_eq_preorder srv srv.tree hall]; exact hchild
      · rw [hcw, htitle]
    · intro hlen
      simp only [List.take_of_length_le hlen]

/-- Witness for C4 (amended): the titled windows of the sample snapshots are listed with
their full titles. -/
theorem c4_titled_window_listed_witness :
    ({ windowId := 5, title := utf16ToUtf8 [65] } : WindowInfo) ∈
      CoreGraphics.GetWindowsForPidImpl cgDesk 77 ∧
    (∃ r ∈ Win32.GetWindowsForPidImpl win32Desk 1234,
      r.windowId = toInt64 (win32WindowA.hwnd : Int) ∧
      r.title = utf16ToUtf8 (win32WindowA.text.take 511) ∧
      (win32WindowA.text.length ≤ 511 → r.title = utf16ToUtf8 win32WindowA.text)) ∧
    (∃ r ∈ X11.GetWindowsForPidImpl xDesk 10,
      r.windowId = toInt64 ((3 : Nat) : Int) ∧ r.title = [82].take 1024 ∧
      (([82] : List Nat).length ≤ 1024 → r.title = [82])) :=
  ⟨(c4_titled_window_listed cgDesk win32Desk xDesk 77).1 (by decide) cgWindowA (by decide)
      5 [65] (by decide) (by decide) (by decide) (by decide) (by decide) (by decide)
      (by decide) (by decide) (by decide) (by decide),
   (c4_titled_window_listed cgDesk win32Desk xDesk 1234).2.1 win32WindowA (by decide)
      (by decide) (by decide) (by decide) (by decide) (by decide) (by decide) (by decide),
   (c4_titled_window_listed cgDesk win32Desk xDesk 10).2.2 (by decide) (by decide)
      (by decide) (by decide) 3 (by decide) xWindowR 10 [82] (by decide) (by decide)
      (by decide) (by decide) (by decide) (by decide) (by decide)⟩

/-! ## C5: no empty titles -/

/-- C5: no record returned by getWindowsForPid has an empty title, on each backend; on Win32
the UTF-8 conversion of the non-empty UTF-16 text read is itself non-empty. -/
theorem c5_no_empty_title :
    (∀ (s : CoreGraphics.Snapshot) (targetPid : Int),
      ∀ r ∈ CoreGraphics.GetWindowsForPidImpl s targetPid, r.title ≠ []) ∧
    (∀ (s : Win32.Snapshot) (targetPid : Int),
      ∀ r ∈ Win32.GetWindowsForPidImpl s targetPid, r.title ≠ []) ∧
    (∀ (srv : X11.Server) (targetPid : Int),
      ∀ r ∈ X11.GetWindowsForPidImpl srv targetPid, r.title ≠ []) := by
  refine ⟨?_, ?_, ?_⟩
  · intro s targetPid r hr
    obtain ⟨_, w, _, _, _, hrec⟩ := (CoreGraphics.mem_cg_getWindowsForPidImpl s targetPid r).1 hr
    obtain ⟨_, _, _, h4, h5⟩ := CoreGraphics.windowRecord_eq_some targetPid w.info r hrec
    rw [h5]; exact h4
  · intro s targetPid r hr
    obtain ⟨w, _, _, hrec⟩ := (Win32.mem_win32_getWindowsForPidImpl s targetPid r).1 hr
    obtain ⟨_, _, _, h4, h5⟩ := Win32.enumWindowsProc_eq_some _ w r hrec
    rw [h5]
    exact utf16ToUtf8_ne_nil _ h4
  · intro srv targetPid r hr
    obtain ⟨_, _, child, x, prop, _, _, _, _, _, _, _, hne, hrr⟩ :=
      X11.record_source srv targetPid r hr
    rw [hrr]; exact hne

/-! ## C6: titles are UTF-8 -/

namespace CoreGraphics

end CoreGraphics

namespace Napi

theorem invalid_iff {D : Type} (info : List (Value D)) :
    (decide (info.length < 1) || !(argument info 0).IsNumber) =
      !firstArgumentIsNumber info := by
  match info with
  | [] => rfl
  | v :: rest => cases v <;> rfl

end Napi

/-- C7: getWindowPid and getWindowsForPid raise a type error exactly when called with no
argument or with a first argument that is not a number; in that case the platform
implementation is not invoked and the outcome does not depend on it. -/
theorem c7_type_error_iff_not_number {D : Type} (ops : Napi.NumberOps D)
    (pidImpl pidImpl' : Int → Int) (windowsImpl windowsImpl' : Int → List WindowInfo)
    (info : List (Napi.Value D)) :
    ((Napi.GetWindowPid ops pidImpl info).typeError.isSome = true ↔
      Napi.firstArgumentIsNumber info = false) ∧
    ((Napi.GetWindowsForPid ops windowsImpl info).typeError.isSome = true ↔
      Napi.firstArgumentIsNumber info = false) ∧
    (Napi.firstArgumentIsNumber info = false →
      (Napi.GetWindowPid ops pidImpl info).implCalls = 0 ∧
      (Napi.GetWindowsForPid ops windowsImpl info).implCalls = 0 ∧
      Napi.GetWindowPid ops pidImpl info = Napi.GetWindowPid ops pidImpl' info ∧
      Napi.GetWindowsForPid ops windowsImpl info =
        Napi.GetWindowsForPid ops windowsImpl' info) := by
  unfold Napi.GetWindowPid Napi.GetWindowsForPid
  simp only [Napi.invalid_iff]
  cases h : Napi.firstArgumentIsNumber info <;> simp

/-- Witness for C7: a call with the string "7" raises the type error without reaching the
implementation, whichever backend state is behind it. -/
theorem c7_type_error_iff_not_number_witness :
    (Napi.GetWindowPid Napi.intOps (Win32.GetWindowPidImpl win32Desk)
        [Napi.Value.string [55]]).implCalls = 0 ∧
    (Napi.GetWindowsForPid Napi.intOps (Win32.GetWindowsForPidImpl win32Desk)
        [Napi.Value.string [55]]).implCalls = 0 ∧
    Napi.GetWindowPid Napi.intOps (Win32.GetWindowPidImpl win32Desk) [Napi.Value.string [55]] =
      Napi.GetWindowPid Napi.intOps (Win32.GetWindowPidImpl win32LongTitle)
        [Napi.Value.string [55]] ∧
    Napi.GetWindowsForPid Napi.intOps (Win32.GetWindowsForPidImpl win32Desk)
        [Napi.Value.string [55]] =
      Napi.GetWindowsForPid Napi.intOps (Win32.GetWindowsForPidImpl win32LongTitle)
        [Napi.Value.string [55]] :=
  (c7_type_error_iff_not_number Napi.intOps (Win32.GetWindowPidImpl win32Desk)
    (Win32.GetWindowPidImpl win32LongTitle) (Win32.GetWindowsForPidImpl win32Desk)
    (Win32.GetWindowsForPidImpl win32LongTitle) [Napi.Value.string [55]]).2.2 rfl

/-! ## C8: tool windows -/

/-- C8: on Win32 a window whose extended style has the WS_EX_TOOLWINDOW bit is absent from
the getWindowsForPid result of every process id, whatever its owner, visibility and
title. -/
theorem c8_tool_window_absent (s : Win32.Snapshot) (targetPid : Int) (w : Win32.Window)
    (hwf : s.WellFormed) (hw : w ∈ s.windows)
    (htool : w.exStyle &&& Win32.WS_EX_TOOLWINDOW ≠ 0) :
    ∀ r ∈ Win32.GetWindowsForPidImpl s targetPid, r.windowId ≠ toInt64 (w.hwnd : Int) := by
  intro r hr heq
  obtain ⟨v, hv, _, hrec⟩ := (Win32.mem_win32_getWindowsForPidImpl s targetPid r).1 hr
  obtain ⟨_, _, h3, _, h5⟩ := Win32.enumWindowsProc_eq_some _ v r hrec
  rw [h5] at heq
  dsimp only at heq
  have hvh : v.hwnd = w.hwnd :=
    toInt64_natCast_inj v.hwnd w.hwnd (hwf.2 v hv).1 (hwf.2 w hw).1 heq
  have hvw : v = w := eq_of_nodup_map Win32.Window.hwnd s.windows hwf.1 v w hv hw hvh
  rw [hvw] at h3
  exact htool h3

/-- Witness for C8: the tool window 65560 of process 1234 is not listed for 1234. -/
theorem c8_tool_window_absent_witness :
    win32Desk.WellFormed ∧ win32ToolWindow ∈ win32Desk.windows ∧
      win32ToolWindow.exStyle &&& Win32.WS_EX_TOOLWINDOW ≠ 0 ∧
      (∀ r ∈ Win32.GetWindowsForPidImpl win32Desk 1234,
        r.windowId ≠ toInt64 (win32ToolWindow.hwnd : Int)) :=
  ⟨by decide, by decide, by decide,
    c8_tool_window_absent win32Desk 1234 win32ToolWindow (by decide) (by decide) (by decide)⟩

/-! ## C9: normal, user-visible state -/

/-- C9 (as stated, refuted on CoreGraphics): a window whose dictionary has no layer entry
is returned, so the returned window is not known to be on layer 0. -/
theorem c9_coreGraphics_missing_layer_returned :
    ∃ r ∈ CoreGraphics.GetWindowsForPidImpl cgNoLayer 77,
      ¬ ∃ w ∈ cgNoLayer.windows, w.info.number = some r.windowId ∧ w.info.layer = some 0 := by
  decide

/-- C9 (amended): every window returned by getWindowsForPid is on screen with a layer entry
that is absent or equal to 0 on CoreGraphics, satisfies IsWindowVisible on Win32, and has
map_state IsViewable on X11. -/
theorem c9_returned_windows_visible :
    (∀ (s : CoreGraphics.Snapshot) (targetPid : Int),
      ∀ r ∈ CoreGraphics.GetWindowsForPidImpl s targetPid,
        ∃ w ∈ s.windows, w.info.number = some r.windowId ∧ w.onScreen = true ∧
          (w.info.layer = none ∨ w.info.layer = some 0)) ∧
    (∀ (s : Win32.Snapshot) (targetPid : Int),
      ∀ r ∈ Win32.GetWindowsForPidImpl s targetPid,
        ∃ w ∈ s.windows, r.windowId = toInt64 (w.hwnd : Int) ∧ w.visible = true) ∧
    (∀ (srv : X11.Server) (targetPid : Int),
      ∀ r ∈ X11.GetWindowsForPidImpl srv targetPid,
        ∃ x ∈ srv.windows, r.windowId = toInt64 (x.id : Int) ∧
          x.mapState = X11.IsViewable) := by
  refine ⟨?_, ?_, ?_⟩
  · intro s targetPid r hr
    obtain ⟨_, w, hw, hon, _, hrec⟩ := (CoreGraphics.mem_cg_getWindowsForPidImpl s targetPid r).1 hr
    obtain ⟨_, h2, h3, _, _⟩ := CoreGraphics.windowRecord_eq_some targetPid w.info r hrec
    exact ⟨w, hw, h3, hon, h2⟩
  · intro s targetPid r hr
    obtain ⟨w, hw, _, hrec⟩ := (Win32.mem_win32_getWindowsForPidImpl s targetPid r).1 hr
    obtain ⟨_, h2, _, _, h5⟩ := Win32.enumWindowsProc_eq_some _ w r hrec
    exact ⟨w, hw, by rw [h5], h2⟩
  · intro srv targetPid r hr
    obtain ⟨_, _, child, x, prop, _, _, hx, hid, _, _, hm, _, hrr⟩ :=
      X11.record_source srv targetPid r hr
    exact ⟨x, hx, by rw [hrr, hid], hm⟩

/-! ## C10: the X11 traversal -/

end WindowUtils
